import Mathlib

/-!
Verification of the WS980 weather-station logger (src/weather.py) against its
natural-language specification.

The Python module is shallowly embedded:
* `bytes` values become `List Nat` (each element a byte value);
* the integer error sentinel `0` that the code mixes with `bytes` becomes the
  dedicated type `PyData`;
* code that may raise an exception returns `Except Unit _` (`.error ()` models
  an uncaught Python exception) or `Option _` where only one failure mode exists;
* the process state touched by discovery (the in-memory `WEATHER_HOST` global
  and the host string persisted in the rewritten source file) becomes `State`;
* socket outcomes (connect success, received payload, broadcast reply, send
  success) are passed in explicitly as parameters, since they are the only
  environment inputs of the corresponding functions.
-/

/-- The struct.unpack format strings used by the schema table in
src/weather.py: the empty format (1-byte fields), the big-endian signed
short format and the big-endian unsigned int format. -/
inductive Fmt where
  | nofmt   : Fmt
  | beShort : Fmt
  | beUInt  : Fmt
deriving DecidableEq

/-- One entry of the VALUES schema table of src/weather.py (lines 73-95). -/
structure SensorField where
  name : String
  csv_name : String
  start : Nat
  length : Nat
  div : Nat
  format : Fmt
  unit : String
deriving DecidableEq

/-- The VALUES schema table, src/weather.py lines 73-95, translated entry for
entry (format strings become the corresponding Fmt constructor). -/
def VALUES : List SensorField := [
  ⟨"temperatur.innen",      "Innentemperatur(°C)",           7,  2, 10, .beShort, "°C"⟩,
  ⟨"temperatur.aussen",     "Außentemperatur(°C)",           10, 2, 10, .beShort, "°C"⟩,
  ⟨"temperatur.taupunkt",   "Taupunkt(°C)",                  13, 2, 10, .beShort, "°C"⟩,
  ⟨"temperatur.gefuehlt",   "Gefühlte Temperatur(°C)",       16, 2, 10, .beShort, "°C"⟩,
  ⟨"temperatur.hitzeIndex", "",                              19, 2, 10, .beShort, "°C"⟩,
  ⟨"feuchte.innen",         "Innenluftfeuchtigkeit(%)",      22, 1, 1,  .nofmt,   "%"⟩,
  ⟨"feuchte.aussen",        "Außenluftfeuchtigkeit(%)",      24, 1, 1,  .nofmt,   "%"⟩,
  ⟨"druck.absolut",         "Absoluter Luftdruck(hPa)",      26, 2, 10, .beShort, "hPa"⟩,
  ⟨"druck.relativ",         "Relativer Luftdruck(hPa)",      29, 2, 10, .beShort, "hPa"⟩,
  ⟨"wind.richtung",         "Windrichtung",                  32, 2, 1,  .beShort, "°"⟩,
  ⟨"wind.geschwindigkeit",  "Wind(km/h)",                    35, 2, 10, .beShort, "m/s"⟩,
  ⟨"wind.boee",             "Windböe(km/h)",                 38, 2, 10, .beShort, "m/s"⟩,
  ⟨"niederschlag.aktuell",  "",                              41, 4, 10, .beUInt,  "mm"⟩,
  ⟨"niederschlag.tag",      "24-Stunden-Niederschlag(mm)",   46, 4, 10, .beUInt,  "mm"⟩,
  ⟨"niederschlag.woche",    "WöchentlicherNiederschlag(mm)", 51, 4, 10, .beUInt,  "mm"⟩,
  ⟨"niederschlag.monat",    "Monatlicher Niederschlag(mm)",  56, 4, 10, .beUInt,  "mm"⟩,
  ⟨"niederschlag.jahr",     "Jahr Niederschlag(mm)",         61, 4, 10, .beUInt,  "mm"⟩,
  ⟨"niederschlag.gesamt",   "Gesamter Niederschlag(mm)",     66, 4, 10, .beUInt,  "mm"⟩,
  ⟨"licht.aktuell",         "Beleuchtung(lux)",              71, 4, 10, .beUInt,  "lux"⟩,
  ⟨"licht.uvWert",          "",                              76, 2, 1,  .beShort, "uW/m²"⟩,
  ⟨"licht.uvIndex",         "UV-Index",                      79, 1, 1,  .nofmt,   ""⟩]

/-- GRAPHITE_METRIC, src/weather.py line 43: metric path header. -/
def GRAPHITE_METRIC : String := "wetter."

/-- MAX_RETRIES, src/weather.py line 49.  The constant is defined in the
source but referenced nowhere else in it. -/
def MAX_RETRIES : Nat := 10

/-- The UTF-8 bytes of the device-name marker b"EasyWeather-WIFIDB77"
(src/weather.py line 283). -/
def EASYWEATHER_MARKER : List Nat :=
  [69, 97, 115, 121, 87, 101, 97, 116, 104, 101, 114, 45, 87, 73, 70, 73, 68, 66, 55, 55]

/-- The value flowing out of request_data_from_weather_station and into
check_crc: either the integer error sentinel 0 or a bytes object. -/
inductive PyData where
  | zero  : PyData
  | bytes : List Nat → PyData
deriving DecidableEq

instance {ε α : Type} [DecidableEq ε] [DecidableEq α] : DecidableEq (Except ε α) :=
  fun x y =>
    match x, y with
    | .error a, .error b =>
      if h : a = b then isTrue (by rw [h]) else isFalse (by simp [h])
    | .ok a, .ok b =>
      if h : a = b then isTrue (by rw [h]) else isFalse (by simp [h])
    | .error _, .ok _ => isFalse (fun hc => Except.noConfusion hc)
    | .ok _, .error _ => isFalse (fun hc => Except.noConfusion hc)

/-- Big-endian interpretation of a byte list as an unsigned integer (the
reading order of int(hex, 16) and of struct.unpack(">h") / (">I")). -/
def beNat (l : List Nat) : Nat :=
  l.foldl (fun acc b => acc * 256 + b) 0

/-- The checksum accumulator of check_crc: the sum of data[2:81]
(src/weather.py lines 127-129). -/
def crc_sum (data : List Nat) : Nat :=
  ((data.drop 2).take 79).sum

/-- check_crc, src/weather.py lines 112-133.  The Python guard
"if data != 0" is true for every bytes object (including b"") and false
exactly for the sentinel 0.  data[81] raises IndexError when the frame is
shorter than 82 bytes, modelled by .error (); "crc & 255" is the same
number as "crc % 256" for the non-negative accumulator. -/
def check_crc : PyData → Except Unit Bool
  | .zero => .ok false
  | .bytes data =>
    match data[81]? with
    | none => .error ()
    | some b => .ok (decide (b = crc_sum data % 256))

/-- Reading of a big-endian signed 16-bit value from its unsigned
representation, as struct.unpack(">h") does. -/
def toSigned16 (u : Nat) : ℤ :=
  if u < 32768 then (u : ℤ) else (u : ℤ) - 65536

/-- bytes_to_float, src/weather.py lines 136-163.  The slice
data[start:start+length] is taken first; a 1-byte field goes through
int(bytes.hex(), 16), which raises on an empty slice (modelled none);
otherwise struct.unpack(fmt, slice) requires the exact width for ">h"/">I"
and always raises for the empty format, modelled none.  Values are exact
rationals in place of Python floats. -/
def bytes_to_float (data : List Nat) (start length div : Nat) (fmt : Fmt) : Option ℚ :=
  let bytes_value := (data.drop start).take length
  if length = 1 then
    match bytes_value with
    | [] => none
    | _ :: _ => some ((beNat bytes_value : ℚ) / (div : ℚ))
  else
    match fmt with
    | .beShort =>
      if bytes_value.length = 2 then
        some (((toSigned16 (beNat bytes_value) : ℤ) : ℚ) / (div : ℚ))
      else none
    | .beUInt =>
      if bytes_value.length = 4 then
        some ((beNat bytes_value : ℚ) / (div : ℚ))
      else none
    | .nofmt => none

/-- The decoded value of one schema field as the specification words it
(spec section 4.1): a 1-byte field is the unsigned byte over the divisor, a
2-byte field is the big-endian signed 16-bit integer over the divisor, a
4-byte field is the big-endian unsigned 32-bit integer over the divisor.
Used to compare bytes_to_float against the specification. -/
def spec_decode (v : SensorField) (data : List Nat) : ℚ :=
  if v.length = 1 then
    (data.getD v.start 0 : ℚ) / (v.div : ℚ)
  else if v.length = 2 then
    ((toSigned16 (data.getD v.start 0 * 256 + data.getD (v.start + 1) 0) : ℤ) : ℚ) / (v.div : ℚ)
  else
    ((data.getD v.start 0 * 16777216 + data.getD (v.start + 1) 0 * 65536 +
      data.getD (v.start + 2) 0 * 256 + data.getD (v.start + 3) 0 : ℚ)) / (v.div : ℚ)

/-- The mutable station-endpoint state of the process: weather_host is the
in-memory WEATHER_HOST module global (src/weather.py line 45), file_host is
the host string stored in the source file on disk, which
update_weather_host_ip rewrites and which the next process run reads at
startup. -/
structure State where
  weather_host : String
  file_host : String
deriving DecidableEq

/-- update_weather_host_ip, src/weather.py lines 290-303.  The guard
returns early when the new address equals the in-memory WEATHER_HOST.
Otherwise the function rewrites the file, replacing the first occurrence of
the in-memory WEATHER_HOST string by the new address — modelled at the
granularity of the stored host value: the stored value changes only if it
still equals the in-memory one (str.replace finds no occurrence otherwise).
The in-memory WEATHER_HOST global is never assigned. -/
def update_weather_host_ip (new_ip : String) (s : State) : State :=
  if new_ip = s.weather_host then s
  else { s with file_host := if s.file_host = s.weather_host then new_ip else s.file_host }

/-- The address that a StationClient connection attempt targets:
socket.create_connection((WEATHER_HOST, WEATHER_PORT), ...) at
src/weather.py line 176 reads the in-memory WEATHER_HOST global. -/
def connection_target (s : State) : String :=
  s.weather_host

/-- Bool test for containment of one byte sequence inside another, as the
Python expression (marker in data) computes on bytes. -/
def bytesContains (needle : List Nat) : List Nat → Bool
  | [] => needle.isPrefixOf ([] : List Nat)
  | b :: t => needle.isPrefixOf (b :: t) || bytesContains needle t

/-- discover_weather_station, src/weather.py lines 265-287.  reply = none
models a recvfrom timeout or error (silently absorbed); otherwise reply
carries the datagram payload and the sender address server[0].  The update
runs only when the payload contains the device-name marker. -/
def discover_weather_station (reply : Option (List Nat × String)) (s : State) : State :=
  match reply with
  | none => s
  | some (data, server) =>
    if bytesContains EASYWEATHER_MARKER data then update_weather_host_ip server s else s

/-- request_data_from_weather_station, src/weather.py lines 166-196.
connectOk models whether socket.create_connection succeeds; on failure the
code calls discover_weather_station and returns 0.  recv = none models a
send/recv exception, leaving data = 0.  check_crc is then applied: an
IndexError it raises propagates out (.error); a passing frame is returned;
otherwise 0 is returned. -/
def request_data_from_weather_station (connectOk : Bool) (recv : Option (List Nat))
    (reply : Option (List Nat × String)) (s : State) : State × Except Unit PyData :=
  if connectOk = false then
    (discover_weather_station reply s, .ok .zero)
  else
    let data : PyData := match recv with
      | none => .zero
      | some d => .bytes d
    match check_crc data with
    | .error e => (s, .error e)
    | .ok true => (s, .ok data)
    | .ok false => (s, .ok .zero)

/-- One element of the list_of_metric_tuples batch:
(path, (timestamp, value)). -/
abbrev MetricTuple := String × ℤ × ℚ

/-- Modelled from the spec: the per-element byte encoding inside
pickle.dumps protocol 2 — an external stdlib serializer whose exact byte
format is a contract with the collector (spec section 4.4), not code of
this repository.  What matters here is that it is total and encodes the
tuple fields of one element. -/
def pickle_encode_metric (m : MetricTuple) : List Nat :=
  (m.1.toList.map Char.toNat) ++
  [if m.2.1 < 0 then 1 else 0, m.2.1.natAbs] ++
  [if m.2.2 < 0 then 1 else 0, m.2.2.num.natAbs, m.2.2.den]

/-- Modelled from the spec: pickle.dumps(batch, protocol=2) — a total,
order-preserving serialization: a fixed protocol header, the element
encodings in batch order, then a stop opcode.  It never raises. -/
def pickle_dumps (batch : List MetricTuple) : List Nat :=
  [128, 2] ++ (batch.map pickle_encode_metric).flatten ++ [46]

/-- struct.pack("!L", n): the 4-byte big-endian encoding of n
(src/weather.py line 246). -/
def packBE32 (n : Nat) : List Nat :=
  [n / 16777216 % 256, n / 65536 % 256, n / 256 % 256, n % 256]

/-- The wire message built by send_data_to_graphite, src/weather.py lines
245-247: header = struct.pack("!L", len(payload)), message = header + payload. -/
def graphite_message (batch : List MetricTuple) : List Nat :=
  let payload := pickle_dumps batch
  packBE32 payload.length ++ payload

/-- send_data_to_graphite, src/weather.py lines 229-262.  The message is
built first (never raises).  socket.create_connection at line 249 is not
inside any try block: a connect failure raises out of the function,
modelled .error ().  sock.sendall is inside try/except: a send failure is
swallowed and success stays False; otherwise success becomes True. -/
def send_data_to_graphite (list_of_metric_tuples : List MetricTuple)
    (connectOk sendOk : Bool) : Except Unit Bool :=
  let _message := graphite_message list_of_metric_tuples
  if connectOk = false then .error ()
  else .ok sendOk

/-- The loop body of format_data_for_graphite over the schema entries:
each entry appends (GRAPHITE_METRIC + name, (current_time, decoded value));
an exception from bytes_to_float aborts the whole call (none). -/
def format_go (data : List Nat) (t : ℤ) : List SensorField → Option (List MetricTuple)
  | [] => some []
  | v :: rest =>
    match bytes_to_float data v.start v.length v.div v.format, format_go data t rest with
    | some x, some l => some ((GRAPHITE_METRIC ++ v.name, t, x) :: l)
    | _, _ => none

/-- format_data_for_graphite, src/weather.py lines 199-226.  current_time
is sampled once (int(time.time())) before the loop and passed here as t. -/
def format_data_for_graphite (data : List Nat) (t : ℤ) : Option (List MetricTuple) :=
  format_go data t VALUES

/-- The environment outcomes of one fetch-decode-deliver attempt: station
connect success, station receive payload, discovery broadcast reply, and
graphite connect and send success. -/
structure AttemptOutcome where
  connectOk : Bool
  recv : Option (List Nat)
  reply : Option (List Nat × String)
  graphiteConnectOk : Bool
  graphiteSendOk : Bool

/-- The poll cycle, src/weather.py lines 306-321 (the body under
"if name == main").  It performs a single request; if the data is not the
sentinel 0 it formats and sends once.  The blanket except catches every
exception, so the cycle itself never raises.  outs lists the environment
outcome each successive fetch attempt would see; the code consumes only the
first, having no retry loop.  Returns (state, number of fetch attempts
performed, delivery success). -/
def main_cycle (outs : List AttemptOutcome) (t : ℤ) (s : State) : State × Nat × Bool :=
  match outs with
  | [] => (s, 0, false)
  | o :: _ =>
    let r := request_data_from_weather_station o.connectOk o.recv o.reply s
    (r.1, 1,
      match r.2 with
      | .error _ => false
      | .ok .zero => false
      | .ok (.bytes d) =>
        match format_data_for_graphite d t with
        | none => false
        | some fd =>
          match send_data_to_graphite fd o.graphiteConnectOk o.graphiteSendOk with
          | .error _ => false
          | .ok b => b)

/-! ### Helper lemmas -/

lemma getElem?_of_lt_length {l : List Nat} {k : Nat} (h : k < l.length) :
    l[k]? = some (l.getD k 0) := by
  rw [List.getElem?_eq_getElem h]
  simp [List.getD_eq_getElem?_getD, List.getElem?_eq_getElem h]

lemma check_crc_eval (f : List Nat) (h : 81 < f.length) :
    check_crc (.bytes f) = .ok (decide (f.getD 81 0 = crc_sum f % 256)) := by
  simp [check_crc, List.getElem?_eq_getElem h,
    List.getD_eq_getElem?_getD, List.getElem?_eq_getElem h]

lemma crc_sum_set81 (f : List Nat) (a : Nat) :
    crc_sum (f.set 81 a) = crc_sum f := by
  unfold crc_sum
  rw [List.drop_set, if_neg (by omega)]
  have h79 : (81 : Nat) - 2 = 79 := by omega
  rw [h79, List.set_take, List.set_eq_of_length_le]
  exact le_trans (List.length_take_le _ _) (by omega)

lemma xor_two_pow_ne (b k : Nat) : Nat.xor b (2 ^ k) ≠ b := by
  show b ^^^ 2 ^ k ≠ b
  intro he
  have h2 : b ^^^ (b ^^^ 2 ^ k) = b ^^^ b := by rw [he]
  rw [← Nat.xor_assoc, Nat.xor_self, Nat.zero_xor] at h2
  have hpos : 0 < 2 ^ k := pow_pos (by omega) k
  omega

/-! ### Claims about check_crc -/

/-- C2: for every frame of length at least 82, check_crc succeeds and returns
true exactly when the byte at offset 81 equals the sum of the bytes at
offsets 2..80 modulo 256; and for any such valid frame, flipping any single
bit of byte 81 makes check_crc return false. -/
theorem check_crc_valid_iff_bitflip (f : List Nat) (h : 82 ≤ f.length) :
    (check_crc (.bytes f) = .ok true ↔ f.getD 81 0 = crc_sum f % 256) ∧
    (check_crc (.bytes f) = .ok true →
      ∀ k, k < 8 →
        check_crc (.bytes (f.set 81 (Nat.xor (f.getD 81 0) (2 ^ k)))) = .ok false) := by
  have h81 : 81 < f.length := by omega
  have hcc := check_crc_eval f h81
  have hiff : check_crc (.bytes f) = .ok true ↔ f.getD 81 0 = crc_sum f % 256 := by
    rw [hcc]
    simp [decide_eq_true_iff]
  refine ⟨hiff, ?_⟩
  intro hvalid k _
  have hb : f.getD 81 0 = crc_sum f % 256 := hiff.mp hvalid
  have h81s : 81 < (f.set 81 (Nat.xor (f.getD 81 0) (2 ^ k))).length := by
    rw [List.length_set]; omega
  have hccs := check_crc_eval (f.set 81 (Nat.xor (f.getD 81 0) (2 ^ k))) h81s
  have hgetset : (f.set 81 (Nat.xor (f.getD 81 0) (2 ^ k))).getD 81 0
      = Nat.xor (f.getD 81 0) (2 ^ k) := by
    rw [List.getD_eq_getElem?_getD, List.getElem?_set_self h81]
    rfl
  rw [hccs, hgetset, crc_sum_set81, ← hb]
  congr 1
  exact decide_eq_false (xor_two_pow_ne (f.getD 81 0) k)

/-- C2 witness: the theorem instantiated at the all-zero 82-byte frame. -/
theorem check_crc_valid_iff_bitflip_witness :
    (check_crc (.bytes (List.replicate 82 0)) = .ok true ↔
        (List.replicate 82 0).getD 81 0 = crc_sum (List.replicate 82 0) % 256) ∧
    (check_crc (.bytes (List.replicate 82 0)) = .ok true →
      ∀ k, k < 8 →
        check_crc (.bytes ((List.replicate 82 0).set 81
          (Nat.xor ((List.replicate 82 0).getD 81 0) (2 ^ k)))) = .ok false) :=
  check_crc_valid_iff_bitflip (List.replicate 82 0) (by simp)

/-- C3 counterexample: the empty frame is a bytes object, so the Python guard
"data != 0" is true, and the read data[81] raises IndexError instead of
returning false. -/
theorem check_crc_empty_frame_raises :
    check_crc (.bytes []) = .error () ∧ check_crc (.bytes []) ≠ .ok false := by
  refine ⟨rfl, ?_⟩
  intro hcontra
  rw [show check_crc (.bytes []) = .error () from rfl] at hcontra
  exact Except.noConfusion hcontra

/-- C3 (amended): check_crc returns false (without raising) exactly for the
integer error sentinel 0; for every bytes frame shorter than 82 bytes,
including the empty one, the read of byte 81 is out of bounds and check_crc
raises instead of returning. -/
theorem check_crc_short_frames :
    check_crc .zero = .ok false ∧
    ∀ f : List Nat, f.length < 82 → check_crc (.bytes f) = .error () := by
  refine ⟨rfl, ?_⟩
  intro f hf
  have hnone : f[81]? = none := List.getElem?_eq_none (by omega)
  simp [check_crc, hnone]

/-- C3 (amended) witness: the amended theorem applied to the empty frame. -/
theorem check_crc_short_frames_witness :
    ([] : List Nat).length < 82 ∧ check_crc (.bytes []) = .error () :=
  ⟨by decide, check_crc_short_frames.2 [] (by decide)⟩

lemma drop_eq_getD_cons {l : List Nat} {n : Nat} (h : n < l.length) :
    l.drop n = l.getD n 0 :: l.drop (n + 1) := by
  rw [List.drop_eq_getElem_cons h]
  congr 1
  simp [List.getD_eq_getElem?_getD, List.getElem?_eq_getElem h]

lemma b2f_one (data : List Nat) (start div : Nat) (fmt : Fmt)
    (h : start + 1 ≤ data.length) :
    bytes_to_float data start 1 div fmt
      = some ((data.getD start 0 : ℚ) / (div : ℚ)) := by
  unfold bytes_to_float
  rw [drop_eq_getD_cons (show start < data.length by omega)]
  simp [beNat]

lemma b2f_two (data : List Nat) (start div : Nat)
    (h : start + 2 ≤ data.length) :
    bytes_to_float data start 2 div .beShort
      = some (((toSigned16 (data.getD start 0 * 256 + data.getD (start + 1) 0) : ℤ) : ℚ)
          / (div : ℚ)) := by
  unfold bytes_to_float
  rw [drop_eq_getD_cons (show start < data.length by omega),
      drop_eq_getD_cons (show start + 1 < data.length by omega)]
  simp [beNat]

lemma b2f_four (data : List Nat) (start div : Nat)
    (h : start + 4 ≤ data.length) :
    bytes_to_float data start 4 div .beUInt
      = some ((data.getD start 0 * 16777216 + data.getD (start + 1) 0 * 65536 +
          data.getD (start + 2) 0 * 256 + data.getD (start + 3) 0 : ℚ) / (div : ℚ)) := by
  unfold bytes_to_float
  rw [drop_eq_getD_cons (show start < data.length by omega),
      drop_eq_getD_cons (show start + 1 < data.length by omega),
      drop_eq_getD_cons (show start + 2 < data.length by omega),
      drop_eq_getD_cons (show start + 3 < data.length by omega)]
  simp [beNat]
  ring

lemma VALUES_b2f_eq (v : SensorField) (hv : v ∈ VALUES) (data : List Nat)
    (h : v.start + v.length ≤ data.length) :
    bytes_to_float data v.start v.length v.div v.format = some (spec_decode v data) := by
  simp only [VALUES, List.mem_cons, List.not_mem_nil, or_false] at hv
  rcases hv with rfl | rfl | rfl | rfl | rfl | rfl | rfl | rfl | rfl | rfl | rfl |
    rfl | rfl | rfl | rfl | rfl | rfl | rfl | rfl | rfl | rfl <;>
    dsimp only at h ⊢ <;>
    first
      | (rw [b2f_one data _ _ _ (by omega)]; norm_num [spec_decode])
      | (rw [b2f_two data _ _ (by omega)]; norm_num [spec_decode])
      | (rw [b2f_four data _ _ (by omega)]; norm_num [spec_decode])

/-! ### Claim about bytes_to_float -/

/-- C4: for every schema field and every frame long enough to contain it,
bytes_to_float decodes a 1-byte field as the unsigned byte over the divisor,
a 2-byte field as the big-endian signed 16-bit integer over the divisor and
a 4-byte field as the big-endian unsigned 32-bit integer over the divisor
(spec_decode); moreover raw 0xFF with divisor 1 decodes to 255, signed bytes
0xFFFF with divisor 10 decode to -0.1, and unsigned bytes 0x00000064 with
divisor 10 decode to 10. -/
theorem bytes_to_float_matches_spec :
    (∀ v ∈ VALUES, ∀ data : List Nat, v.start + v.length ≤ data.length →
      bytes_to_float data v.start v.length v.div v.format = some (spec_decode v data)) ∧
    bytes_to_float [255] 0 1 1 .nofmt = some 255 ∧
    bytes_to_float [255, 255] 0 2 10 .beShort = some (-(1 / 10)) ∧
    bytes_to_float [0, 0, 0, 100] 0 4 10 .beUInt = some 10 := by
  refine ⟨fun v hv data h => VALUES_b2f_eq v hv data h, ?_, ?_, ?_⟩
  · rw [b2f_one [255] 0 1 .nofmt (by simp)]
    norm_num
  · rw [b2f_two [255, 255] 0 10 (by simp)]
    norm_num [toSigned16]
  · rw [b2f_four [0, 0, 0, 100] 0 10 (by simp)]
    norm_num

/-- C4 witness: the schema part of the theorem applied to the first schema
entry and the all-zero 82-byte frame. -/
theorem bytes_to_float_matches_spec_witness :
    (⟨"temperatur.innen", "Innentemperatur(°C)", 7, 2, 10, .beShort, "°C"⟩ : SensorField)
      ∈ VALUES ∧
    bytes_to_float (List.replicate 82 0) 7 2 10 .beShort
      = some (spec_decode
          ⟨"temperatur.innen", "Innentemperatur(°C)", 7, 2, 10, .beShort, "°C"⟩
          (List.replicate 82 0)) := by
  have hmem : (⟨"temperatur.innen", "Innentemperatur(°C)", 7, 2, 10, .beShort, "°C"⟩ :
      SensorField) ∈ VALUES := by
    unfold VALUES
    exact List.mem_cons_self _ _
  exact ⟨hmem, bytes_to_float_matches_spec.1 _ hmem (List.replicate 82 0) (by simp)⟩

/-! ### Claims about discovery and the endpoint state -/

/-- C9: discovery leaves the stored endpoint (in-memory and persisted)
unchanged on a missing reply, on a reply without the device-name marker, and
when the discovered address equals the current one; updating with the same
address is a no-op and the next fetch attempt still targets the old address. -/
theorem discovery_noop_cases :
    (∀ s, discover_weather_station none s = s) ∧
    (∀ s data server, bytesContains EASYWEATHER_MARKER data = false →
      discover_weather_station (some (data, server)) s = s) ∧
    (∀ s, update_weather_host_ip s.weather_host s = s) ∧
    (∀ s data, discover_weather_station (some (data, s.weather_host)) s = s) ∧
    (∀ s data server, bytesContains EASYWEATHER_MARKER data = false →
      connection_target (discover_weather_station (some (data, server)) s)
        = connection_target s) := by
  refine ⟨fun s => rfl, ?_, ?_, ?_, ?_⟩
  · intro s data server hm
    simp [discover_weather_station, hm]
  · intro s
    simp [update_weather_host_ip]
  · intro s data
    by_cases hm : bytesContains EASYWEATHER_MARKER data
    · simp [discover_weather_station, hm, update_weather_host_ip]
    · simp [discover_weather_station, hm]
  · intro s data server hm
    simp [discover_weather_station, hm]

/-- C9 witness: the no-marker case applied to an empty reply payload. -/
theorem discovery_noop_cases_witness :
    bytesContains EASYWEATHER_MARKER [] = false ∧
    discover_weather_station (some ([], "192.168.8.99"))
        (State.mk "192.168.8.55" "192.168.8.55")
      = State.mk "192.168.8.55" "192.168.8.55" :=
  ⟨by decide, discovery_noop_cases.2.1 _ [] "192.168.8.99" (by decide)⟩

/-- C1 counterexample: with the station at 192.168.8.55 and a matching locate
reply from 192.168.8.77, the persisted host becomes 192.168.8.77 but the very
next connection attempt in the same process still targets 192.168.8.55,
because update_weather_host_ip rewrites only the file and never assigns the
in-memory WEATHER_HOST global. -/
theorem discovery_not_visible_in_process :
    connection_target (discover_weather_station
        (some (EASYWEATHER_MARKER, "192.168.8.77"))
        (State.mk "192.168.8.55" "192.168.8.55")) = "192.168.8.55" ∧
    connection_target (discover_weather_station
        (some (EASYWEATHER_MARKER, "192.168.8.77"))
        (State.mk "192.168.8.55" "192.168.8.55")) ≠ "192.168.8.77" ∧
    (discover_weather_station (some (EASYWEATHER_MARKER, "192.168.8.77"))
        (State.mk "192.168.8.55" "192.168.8.55")).file_host = "192.168.8.77" := by
  decide

/-- C1 (amended): after discovery finds a new device address (a matching
locate reply whose sender differs from the current endpoint), the persisted
endpoint value read immediately afterwards equals the newly discovered
address (provided the file still holds the in-memory address, as at process
start), but the in-process endpoint targeted by the very next connection
attempt is unchanged; the new address takes effect only when a later process
run re-reads the file. -/
theorem discovery_updates_file_only (s : State) (data : List Nat) (server : String)
    (hfile : s.file_host = s.weather_host)
    (hm : bytesContains EASYWEATHER_MARKER data = true)
    (hne : server ≠ s.weather_host) :
    (discover_weather_station (some (data, server)) s).file_host = server ∧
    connection_target (discover_weather_station (some (data, server)) s)
      = s.weather_host := by
  simp [discover_weather_station, hm, update_weather_host_ip, hne, hfile, connection_target]

/-- C1 (amended) witness: the amended theorem at a concrete state and reply. -/
theorem discovery_updates_file_only_witness :
    (discover_weather_station (some (EASYWEATHER_MARKER, "192.168.8.77"))
        (State.mk "192.168.8.55" "192.168.8.55")).file_host = "192.168.8.77" ∧
    connection_target (discover_weather_station (some (EASYWEATHER_MARKER, "192.168.8.77"))
        (State.mk "192.168.8.55" "192.168.8.55")) = "192.168.8.55" :=
  discovery_updates_file_only (State.mk "192.168.8.55" "192.168.8.55")
    EASYWEATHER_MARKER "192.168.8.77" rfl (by decide) (by decide)

/-! ### Claims about the station client and the graphite sink -/

/-- C7: on connect failure request_data_from_weather_station invokes
discovery and reports the failure sentinel 0; on send/receive failure it
reports 0; on a frame whose checksum comparison is false it reports 0; and
it returns a raw frame only when that frame passes check_crc. -/
theorem request_data_contract :
    (∀ recv reply s, request_data_from_weather_station false recv reply s
        = (discover_weather_station reply s, Except.ok PyData.zero)) ∧
    (∀ reply s, request_data_from_weather_station true none reply s
        = (s, Except.ok PyData.zero)) ∧
    (∀ d reply s, check_crc (.bytes d) = .ok false →
      request_data_from_weather_station true (some d) reply s
        = (s, Except.ok PyData.zero)) ∧
    (∀ connectOk recv reply s d,
      (request_data_from_weather_station connectOk recv reply s).2
          = .ok (.bytes d) →
      check_crc (.bytes d) = .ok true) := by
  refine ⟨fun recv reply s => rfl, fun reply s => rfl, ?_, ?_⟩
  · intro d reply s hcrc
    simp [request_data_from_weather_station, hcrc]
  · intro connectOk recv reply s d hres
    cases connectOk
    · simp [request_data_from_weather_station] at hres
    · cases recv with
      | none => simp [request_data_from_weather_station, check_crc] at hres
      | some d2 =>
        rcases hc : check_crc (.bytes d2) with e | b
        · simp [request_data_from_weather_station, hc] at hres
        · cases b
          · simp [request_data_from_weather_station, hc] at hres
          · simp [request_data_from_weather_station, hc] at hres
            rw [← hres]
            exact hc

/-- C7 witness: the checksum-mismatch conjunct applied to an 82-byte frame
whose trailer byte does not match the payload sum. -/
theorem request_data_contract_witness :
    check_crc (.bytes (List.replicate 81 0 ++ [1])) = .ok false ∧
    request_data_from_weather_station true (some (List.replicate 81 0 ++ [1])) none
        (State.mk "192.168.8.55" "192.168.8.55")
      = (State.mk "192.168.8.55" "192.168.8.55", Except.ok PyData.zero) :=
  ⟨by decide, request_data_contract.2.2.1 _ none _ (by decide)⟩

/-- C6 counterexample: a connect failure makes send_data_to_graphite raise
(socket.create_connection at line 249 is outside every try block), so the
call does not return the Failure value False. -/
theorem send_connect_failure_raises :
    send_data_to_graphite [] false true = .error () ∧
    send_data_to_graphite [] false true ≠ .ok false := by
  refine ⟨rfl, ?_⟩
  intro h
  rw [show send_data_to_graphite [] false true = .error () from rfl] at h
  exact Except.noConfusion h

/-- C6 (amended): for every batch, a failure while writing the message
yields the result False returned to the caller without an exception and
without an internal retry; a failure while connecting to the collector,
however, raises out of the function (handled only by the caller's blanket
handler); a fully successful call returns True. -/
theorem send_data_result_contract (batch : List MetricTuple) (sendOk : Bool) :
    send_data_to_graphite batch false sendOk = .error () ∧
    send_data_to_graphite batch true false = .ok false ∧
    send_data_to_graphite batch true true = .ok true :=
  ⟨rfl, rfl, rfl⟩

lemma beNat_packBE32 (n : Nat) (h : n < 4294967296) : beNat (packBE32 n) = n := by
  simp [beNat, packBE32]
  omega

/-- C8: for every batch, the wire message is the 4-byte big-endian header
holding the payload length, followed by the serialized payload, which lists
the element encodings in batch order; the empty batch produces a valid wire
message. -/
theorem graphite_message_framing :
    (∀ batch, graphite_message batch
        = packBE32 (pickle_dumps batch).length ++ pickle_dumps batch) ∧
    (∀ batch, (graphite_message batch).drop 4 = pickle_dumps batch) ∧
    (∀ batch, (pickle_dumps batch).length < 4294967296 →
      beNat ((graphite_message batch).take 4) = (pickle_dumps batch).length) ∧
    (∀ batch, pickle_dumps batch
        = [128, 2] ++ (batch.map pickle_encode_metric).flatten ++ [46]) ∧
    graphite_message [] = [0, 0, 0, 3, 128, 2, 46] := by
  refine ⟨fun batch => rfl, ?_, ?_, fun batch => rfl, by decide⟩
  · intro batch
    simp [graphite_message, packBE32]
  · intro batch h
    have htake : (graphite_message batch).take 4
        = packBE32 (pickle_dumps batch).length := by
      simp [graphite_message, packBE32]
    rw [htake, beNat_packBE32 _ h]

/-- C8 witness: the header-decoding conjunct applied to the empty batch. -/
theorem graphite_message_framing_witness :
    (pickle_dumps []).length < 4294967296 ∧
    beNat ((graphite_message []).take 4) = (pickle_dumps []).length :=
  ⟨by decide, graphite_message_framing.2.2.1 [] (by decide)⟩

lemma format_go_eq_map (data : List Nat) (t : ℤ) (fields : List SensorField)
    (h : ∀ v ∈ fields, bytes_to_float data v.start v.length v.div v.format
        = some (spec_decode v data)) :
    format_go data t fields
      = some (fields.map fun v => (GRAPHITE_METRIC ++ v.name, t, spec_decode v data)) := by
  induction fields with
  | nil => rfl
  | cons v rest ih =>
    have hv := h v (List.mem_cons_self _ _)
    have hrest := ih (fun w hw => h w (List.mem_cons_of_mem _ hw))
    simp [format_go, hv, hrest]

lemma VALUES_fit_80 : ∀ v ∈ VALUES, v.start + v.length ≤ 80 := by decide

/-! ### Claim about format_data_for_graphite -/

/-- C10: for every frame long enough for every schema entry (80 bytes), the
batch contains exactly one reading per entry of the 21-entry schema table,
in schema order, the i-th metric path is the fixed prefix "wetter."
concatenated with the i-th schema entry name, and every reading carries the
one timestamp sampled for the call. -/
theorem format_schema_invariants (data : List Nat) (t : ℤ) (h : 80 ≤ data.length) :
    ∃ l, format_data_for_graphite data t = some l ∧
      l.length = 21 ∧ VALUES.length = 21 ∧
      (∀ i, (hi : i < l.length) → (hv : i < VALUES.length) →
        (l.get ⟨i, hi⟩).1 = "wetter." ++ (VALUES.get ⟨i, hv⟩).name ∧
        (l.get ⟨i, hi⟩).2.1 = t) := by
  have hall : ∀ v ∈ VALUES, bytes_to_float data v.start v.length v.div v.format
      = some (spec_decode v data) := by
    intro v hv
    exact VALUES_b2f_eq v hv data (le_trans (VALUES_fit_80 v hv) h)
  rw [format_data_for_graphite, format_go_eq_map data t VALUES hall]
  refine ⟨_, rfl, by simp [VALUES], rfl, ?_⟩
  intro i hi hv
  constructor
  · simp [List.getElem_map, GRAPHITE_METRIC]
  · simp [List.getElem_map]

/-- C10 witness: the theorem applied to the all-zero 82-byte frame. -/
theorem format_schema_invariants_witness :
    80 ≤ (List.replicate 82 0 : List Nat).length ∧
    ∃ l, format_data_for_graphite (List.replicate 82 0) 7 = some l ∧
      l.length = 21 ∧ VALUES.length = 21 ∧
      (∀ i, (hi : i < l.length) → (hv : i < VALUES.length) →
        (l.get ⟨i, hi⟩).1 = "wetter." ++ (VALUES.get ⟨i, hv⟩).name ∧
        (l.get ⟨i, hi⟩).2.1 = 7) :=
  ⟨by simp, format_schema_invariants (List.replicate 82 0) 7 (by simp)⟩

/-! ### Claims about the poll cycle -/

/-- C5 counterexample: with a device that fails to connect on the first 3
attempts and would succeed on the 4th, the cycle performs exactly 1 internal
attempt and fails; it does not perform 4 attempts and does not complete
successfully, because the source has no retry loop and never reads
MAX_RETRIES. -/
theorem poll_cycle_no_retries :
    main_cycle [⟨false, none, none, true, true⟩, ⟨false, none, none, true, true⟩,
        ⟨false, none, none, true, true⟩,
        ⟨true, some (List.replicate 82 0), none, true, true⟩] 0
        (State.mk "192.168.8.55" "192.168.8.55")
      = (State.mk "192.168.8.55" "192.168.8.55", 1, false) ∧
    (1 : Nat) ≠ 4 := by
  exact ⟨rfl, by decide⟩

/-- C5 (amended): each poll cycle performs exactly one internal
fetch-decode-deliver attempt, with no retry loop and no inter-retry delay;
MAX_RETRIES = 10 is defined but unused; a cycle whose single attempt fails
to connect ends unsuccessfully, and a cycle whose single attempt fully
succeeds delivers. -/
theorem poll_cycle_single_attempt :
    (∀ o rest t s, (main_cycle (o :: rest) t s).2.1 = 1) ∧
    MAX_RETRIES = 10 ∧
    (∀ t s rest, main_cycle (AttemptOutcome.mk false none none true true :: rest) t s
        = (s, 1, false)) ∧
    (∀ t s rest,
      (main_cycle
          (AttemptOutcome.mk true (some (List.replicate 82 0)) none true true :: rest)
          t s).2.2 = true) := by
  refine ⟨fun o rest t s => rfl, rfl, fun t s rest => rfl, fun t s rest => ?_⟩
  rfl
